import Mathlib

/-!
Shallow embedding of the mongo-backup-tool application (src/main.py) and
verification of its specification.

The Python program is a Streamlit front-end around the external mongodump
and mongorestore binaries.  The embedding models:

* `get_database_size` (main.py lines 94-108): summing collection statistics,
  skipping collections and databases that raise access errors;
* the size-report phase, size ceiling gate and export loop inside
  `create_and_offer_download` (main.py lines 170-326);
* `validate_backup_zip` (main.py lines 340-364);
* `restore_database` (main.py lines 367-436);
* one cycle of the `cleanup_old_backups` retention sweeper (main.py
  lines 75-86).

External effects (the MongoDB server, the dump/restore binaries, the
filesystem) are modelled by an environment record of oracles; the Python
control flow is translated branch for branch.
-/

namespace MongoBackupTool

/-- Default value of the MAX_EXPORT_SIZE constant (main.py line 15): 512 MiB. -/
def MAX_EXPORT_SIZE_default : Nat := 512 * 1024 * 1024

/-- Default value of the BACKUP_RETENTION_HOURS constant (main.py line 16). -/
def BACKUP_RETENTION_HOURS_default : Nat := 1

/-- Embedding of Python str.endswith: the suffix test on the character
sequence of the string. -/
def str_endswith (s suf : String) : Bool := decide (suf.data <:+ s.data)

/-- Embedding of Python str.startswith on the character sequence. -/
def str_startswith (s p : String) : Bool := decide (p.data <+: s.data)

/-- One collection as seen through collstats (main.py lines 98-104):
its name, whether the collstats command succeeds (an OperationFailure is
modelled by accessible = false), and the reported size in bytes. -/
structure CollStat where
  name : String
  accessible : Bool
  size : Nat
deriving DecidableEq

/-- Oracle environment for one backup request: the outcome of every external
interaction the Python code performs.
allDbNames is client.list_database_names() (none models OperationFailure);
colls n is the collection listing of database n (none models a database-level
OperationFailure in get_database_size); dumpExit n is the exit code of the
per-database mongodump invocation for n; bulkExit and bulkStderr describe the
single bulk-mode mongodump invocation. -/
structure MongoEnv where
  allDbNames : Option (List String)
  colls : String → Option (List CollStat)
  dumpExit : String → Nat
  bulkExit : Nat
  bulkStderr : String

/-- The collection loop of get_database_size (main.py lines 98-104):
collections whose collstats command fails are skipped and contribute 0. -/
def sumAccessible : List CollStat → Nat
  | [] => 0
  | c :: cs => (if c.accessible then c.size else 0) + sumAccessible cs

/-- get_database_size (main.py lines 94-108): total size of one database;
a database-level OperationFailure yields 0. -/
def get_database_size : Option (List CollStat) → Nat
  | none => 0
  | some cs => sumAccessible cs

/-- The size-calculation loop of create_and_offer_download (main.py lines
193-199): running total and the size_details mapping, where a database is
recorded only when its computed size is strictly positive. -/
def sizePhase (env : MongoEnv) : List String → Nat × List (String × Nat)
  | [] => (0, [])
  | n :: rest =>
    if get_database_size (env.colls n) > 0 then
      (get_database_size (env.colls n) + (sizePhase env rest).1,
        (n, get_database_size (env.colls n)) :: (sizePhase env rest).2)
    else sizePhase env rest

/-- The output folder name chosen by create_and_offer_download (main.py
lines 224-229), as a function of the requested names and the timestamp. -/
def folderName (dbNames : List String) (timestamp : String) : String :=
  match dbNames with
  | [n] => n ++ "_" ++ timestamp
  | [] => "all_databases_" ++ timestamp
  | _ => "multiple_dbs_" ++ toString dbNames.length ++ "_" ++ timestamp

/-- Modelled from the spec: the external export tool is out of scope of the
repository (spec section 1); per its glossary entry and section 6 it writes,
for each collection of the dumped database, a binary data file and a metadata
file, named with the .bson and .metadata.json extensions.  A failed
invocation contributes no files. -/
def dumpFiles (env : MongoEnv) (dbName : String) : List String :=
  match env.colls dbName with
  | none => []
  | some cs =>
    cs.foldr
      (fun c acc =>
        ((dbName ++ "/" ++ c.name) ++ ".bson")
          :: ((dbName ++ "/" ++ c.name) ++ ".metadata.json") :: acc)
      []

/-- Modelled from the spec: a successful bulk-mode invocation dumps every
database on the server (spec section 4.2 step 4). -/
def bulkFiles (env : MongoEnv) : List String :=
  (env.allDbNames.getD []).foldr (fun n acc => dumpFiles env n ++ acc) []

/-- The per-database export loop (main.py lines 236-264): each requested
database gets one mongodump invocation in order; a non-zero exit appends the
database to error_dbs and the loop continues.  Returns the files written into
the output directory and the error_dbs list. -/
def exportLoop (env : MongoEnv) : List String → List String × List String
  | [] => ([], [])
  | n :: rest =>
    if env.dumpExit n != 0 then
      ((exportLoop env rest).1, n :: (exportLoop env rest).2)
    else (dumpFiles env n ++ (exportLoop env rest).1, (exportLoop env rest).2)

/-- Terminal outcome of one create_and_offer_download call. -/
inductive BackupOutcome where
  | listPermError
  | noAccessibleDbs
  | sizeLimitExceeded (total : Nat) (ceiling : Nat)
  | completed (archiveFiles : List String) (errorDbs : List String)
  | failedBulk (message : String)
deriving DecidableEq

/-- Observable result of one create_and_offer_download call: the outcome,
the mongodump per-database invocations in order, whether the bulk-mode
branch ran, whether a zip archive was produced, and the lifecycle of the
uncompressed output directory. -/
structure BackupRun where
  outcome : BackupOutcome
  invocations : List String
  bulkInvoked : Bool
  archiveProduced : Bool
  outputDirCreated : Bool
  outputDirRemoved : Bool
  folder : Option String
deriving DecidableEq

/-- Resolution of the db_names argument (main.py lines 185-190): a None
argument is replaced by client.list_database_names() before any branching. -/
def resolveDbNames (env : MongoEnv) (arg : Option (List String)) :
    Option (List String) :=
  match arg with
  | some l => some l
  | none => env.allDbNames

/-- create_and_offer_download (main.py lines 170-326), branch for branch:
resolve db_names, compute the size report, reject an empty report (line 201),
enforce the size ceiling (line 205), then either run the per-database export
loop followed by make_archive and removal of the uncompressed directory
(lines 236-291), or - only when the resolved list is empty - run the bulk
invocation whose non-zero exit raises, is caught at line 317, removes the
output directory and produces no archive. -/
def create_and_offer_download (env : MongoEnv) (maxExportSize : Nat)
    (timestamp : String) (dbNamesArg : Option (List String)) : BackupRun :=
  match resolveDbNames env dbNamesArg with
  | none =>
    { outcome := .listPermError, invocations := [], bulkInvoked := false,
      archiveProduced := false, outputDirCreated := false,
      outputDirRemoved := false, folder := none }
  | some dbNames =>
    let sp := sizePhase env dbNames
    if sp.2 = [] then
      { outcome := .noAccessibleDbs, invocations := [], bulkInvoked := false,
        archiveProduced := false, outputDirCreated := false,
        outputDirRemoved := false, folder := none }
    else if sp.1 > maxExportSize then
      { outcome := .sizeLimitExceeded sp.1 maxExportSize, invocations := [],
        bulkInvoked := false, archiveProduced := false,
        outputDirCreated := false, outputDirRemoved := false, folder := none }
    else
      let fname := folderName dbNames timestamp
      if dbNames = [] then
        if env.bulkExit != 0 then
          { outcome := .failedBulk ("Error creating backup: " ++ env.bulkStderr),
            invocations := [], bulkInvoked := true, archiveProduced := false,
            outputDirCreated := true, outputDirRemoved := true,
            folder := some fname }
        else
          { outcome := .completed (bulkFiles env) [], invocations := [],
            bulkInvoked := true, archiveProduced := true,
            outputDirCreated := true, outputDirRemoved := true,
            folder := some fname }
      else
        let r := exportLoop env dbNames
        { outcome := .completed r.1 r.2, invocations := dbNames,
          bulkInvoked := false, archiveProduced := true,
          outputDirCreated := true, outputDirRemoved := true,
          folder := some fname }

/-- The structural-signature predicate of validate_backup_zip (main.py lines
353-356): at least one entry in the zip file listing ends in .bson or in
.metadata.json. -/
def has_valid_structure (fileList : List String) : Bool :=
  fileList.any (fun name =>
    str_endswith name ".bson" || str_endswith name ".metadata.json")

/-- validate_backup_zip (main.py lines 340-364) on the observable properties
of the uploaded file: whether it is a well-formed zip, and its file listing.
Returns the (ok, error message) pair the Python function returns. -/
def validate_backup_zip (isZip : Bool) (fileList : List String) :
    Bool × Option String :=
  if !isZip then (false, some "Invalid ZIP file")
  else if !(has_valid_structure fileList) then
    (false, some "ZIP file does not contain valid MongoDB backup data")
  else (true, none)

/-- Observable properties of one restore request and its environment:
whether the uploaded bytes form a well-formed zip, the zip file listing,
whether extractall raises mid-extraction, the directories present at the top
of the staging area after extraction, and the exit code and diagnostic
stream of the mongorestore invocation. -/
structure RestoreInput where
  isZip : Bool
  fileList : List String
  extractRaises : Bool
  topDirs : List String
  restoreExit : Nat
  restoreStderr : String
deriving DecidableEq

/-- Terminal outcome of one restore_database call. -/
inductive RestoreOutcome where
  | validationFailed (message : String)
  | extractionError
  | noBackupDir
  | toolFailed (stderr : String)
  | restored (dbName : String)
deriving DecidableEq

/-- Observable result of one restore_database call: the outcome, whether the
mongorestore binary was invoked, and whether the temporary staging directory
was removed before returning. -/
structure RestoreRun where
  outcome : RestoreOutcome
  toolInvoked : Bool
  tempDirRemoved : Bool
deriving DecidableEq

/-- restore_database (main.py lines 367-436), branch for branch: the body of
the try block validates the upload (early return at line 384), extracts the
zip (an exception is caught by the except clause at line 431), rejects a
staging area with no backup directory besides __MACOSX (line 397), and
otherwise invokes mongorestore, reporting its stderr on a non-zero exit.
The finally clause (lines 433-436) removes the staging directory on every
one of these exits, which the embedding renders by building the result from
the body and setting tempDirRemoved unconditionally. -/
def restore_database (inp : RestoreInput) (dbName : String) : RestoreRun :=
  let body : RestoreOutcome × Bool :=
    match validate_backup_zip inp.isZip inp.fileList with
    | (false, msg) => (.validationFailed (msg.getD ""), false)
    | (true, _) =>
      if inp.extractRaises then (.extractionError, false)
      else
        match inp.topDirs.filter (fun d => d != "__MACOSX") with
        | [] => (.noBackupDir, false)
        | _ :: _ =>
          if inp.restoreExit != 0 then (.toolFailed inp.restoreStderr, true)
          else (.restored dbName, true)
  { outcome := body.1, toolInvoked := body.2, tempDirRemoved := true }

/-- One entry of os.listdir(OUTPUT_DIR) as the sweeper sees it: its name,
whether it is a directory, its age in seconds at sweep time, and whether
shutil.rmtree on it raises (e.g. a concurrent delete). -/
structure DirEntry where
  name : String
  isDir : Bool
  ageSeconds : Nat
  deleteRaises : Bool
deriving DecidableEq

/-- The deletion condition of cleanup_old_backups (main.py lines 80-84):
name starts with backup_, the entry is a directory, and its age exceeds the
retention window in seconds. -/
def sweepEligible (retentionHours : Nat) (e : DirEntry) : Bool :=
  str_startswith e.name "backup_" && e.isDir
    && decide (e.ageSeconds > retentionHours * 3600)

/-- One cycle of the cleanup_old_backups loop (main.py lines 77-86) over the
listed entries in order.  Returns the names deleted this cycle, and some name
if deleting that entry raised: rmtree is not guarded by any try
statement, so the exception propagates out of the for loop (and out of the
enclosing while loop), leaving every later entry unprocessed. -/
def sweepOnce (retentionHours : Nat) : List DirEntry → List String × Option String
  | [] => ([], none)
  | e :: rest =>
    if sweepEligible retentionHours e then
      if e.deleteRaises then ([], some e.name)
      else
        let r := sweepOnce retentionHours rest
        (e.name :: r.1, r.2)
    else sweepOnce retentionHours rest

/-! Concrete environments used to exercise the model on the scenarios of the
specification. -/

/-- Environment of the size-ceiling scenario: databases db1 and db2 report
60 and 50 bytes; every export invocation succeeds. -/
def scenarioEnv : MongoEnv where
  allDbNames := some ["db1", "db2"]
  colls := fun n =>
    if n = "db1" then some [{ name := "c1", accessible := true, size := 60 }]
    else if n = "db2" then some [{ name := "c2", accessible := true, size := 50 }]
    else none
  dumpExit := fun _ => 0
  bulkExit := 0
  bulkStderr := ""

/-- Environment with a single accessible database whose stored size is 0. -/
def zeroSizeEnv : MongoEnv where
  allDbNames := some ["db1"]
  colls := fun _ => some [{ name := "c1", accessible := true, size := 0 }]
  dumpExit := fun _ => 0
  bulkExit := 0
  bulkStderr := ""

/-- Environment of the partial-failure scenario: three databases a, b, c of
10 bytes each; only the export of b exits non-zero. -/
def partialFailEnv : MongoEnv where
  allDbNames := some ["a", "b", "c"]
  colls := fun n =>
    if n = "a" then some [{ name := "c1", accessible := true, size := 10 }]
    else if n = "b" then some [{ name := "c2", accessible := true, size := 10 }]
    else if n = "c" then some [{ name := "c3", accessible := true, size := 10 }]
    else none
  dumpExit := fun n => if n = "b" then 1 else 0
  bulkExit := 0
  bulkStderr := ""

/-- Environment where the export of the only requested database fails. -/
def allFailEnv : MongoEnv where
  allDbNames := some ["db1"]
  colls := fun _ => some [{ name := "c1", accessible := true, size := 5 }]
  dumpExit := fun _ => 1
  bulkExit := 0
  bulkStderr := ""

/-- Environment where database a exports successfully and database b fails. -/
def mixedFailEnv : MongoEnv where
  allDbNames := some ["a", "b"]
  colls := fun n =>
    if n = "a" then some [{ name := "c1", accessible := true, size := 5 }]
    else if n = "b" then some [{ name := "c2", accessible := true, size := 5 }]
    else none
  dumpExit := fun n => if n = "b" then 1 else 0
  bulkExit := 0
  bulkStderr := ""

/-- Environment for an all-databases request (db_names = None) where the
export of database b exits non-zero. -/
def allDbsFailEnv : MongoEnv where
  allDbNames := some ["a", "b"]
  colls := fun n =>
    if n = "a" then some [{ name := "c1", accessible := true, size := 5 }]
    else if n = "b" then some [{ name := "c2", accessible := true, size := 5 }]
    else none
  dumpExit := fun n => if n = "b" then 1 else 0
  bulkExit := 1
  bulkStderr := "bulk failed"

/-- Environment where every database raises a database-level access error. -/
def deniedEnv : MongoEnv where
  allDbNames := some ["db1"]
  colls := fun _ => none
  dumpExit := fun _ => 0
  bulkExit := 0
  bulkStderr := ""

/-- Environment with one fully accessible database whose only collection
reports size 0. -/
def emptyDbEnv : MongoEnv where
  allDbNames := some ["db1"]
  colls := fun _ => some [{ name := "c1", accessible := true, size := 0 }]
  dumpExit := fun _ => 0
  bulkExit := 0
  bulkStderr := ""

/-- A well-formed zip upload containing only unrelated files. -/
def inpUnrelated : RestoreInput where
  isZip := true
  fileList := ["readme.txt", "photo.png"]
  extractRaises := false
  topDirs := []
  restoreExit := 0
  restoreStderr := ""

/-- An expired backup directory whose deletion succeeds. -/
def agedOkEntry : DirEntry where
  name := "backup_ok"
  isDir := true
  ageSeconds := 999999
  deleteRaises := false

/-- An expired backup directory whose deletion raises. -/
def raisingEntry : DirEntry where
  name := "backup_a"
  isDir := true
  ageSeconds := 999999
  deleteRaises := true

/-- An expired backup directory listed after the raising one. -/
def agedEntry : DirEntry where
  name := "backup_b"
  isDir := true
  ageSeconds := 999999
  deleteRaises := false

/-! Helper lemmas about the embedded operations. -/

/-- Appending a suffix makes str_endswith hold. -/
theorem str_endswith_append (s t : String) : str_endswith (s ++ t) t = true := by
  unfold str_endswith
  rw [String.data_append]
  exact decide_eq_true (List.suffix_append s.data t.data)

/-- An inaccessible collection contributes nothing to sumAccessible. -/
theorem sumAccessible_skip (c : CollStat) (cs : List CollStat)
    (h : c.accessible = false) : sumAccessible (c :: cs) = sumAccessible cs := by
  simp [sumAccessible, h]

/-- If every collection of a listing is inaccessible, its sum is zero. -/
theorem sumAccessible_all_inaccessible (cs : List CollStat)
    (h : ∀ c ∈ cs, c.accessible = false) : sumAccessible cs = 0 := by
  induction cs with
  | nil => rfl
  | cons c rest ih =>
    rw [sumAccessible_skip c rest (h c (List.mem_cons_self c rest))]
    exact ih fun d hd => h d (List.mem_cons_of_mem c hd)

/-- The running total of the size phase equals the sum of the recorded
per-database sizes. -/
theorem sizePhase_total (env : MongoEnv) (names : List String) :
    (sizePhase env names).1 = ((sizePhase env names).2.map Prod.snd).sum := by
  induction names with
  | nil => rfl
  | cons n rest ih =>
    by_cases hs : get_database_size (env.colls n) > 0
    · simp [sizePhase, if_pos hs, ih]
    · simp [sizePhase, if_neg hs, ih]

/-- Every entry of the size report has a strictly positive size. -/
theorem sizePhase_mem_pos (env : MongoEnv) (names : List String)
    (p : String × Nat) (hp : p ∈ (sizePhase env names).2) : 0 < p.2 := by
  induction names with
  | nil => simp [sizePhase] at hp
  | cons n rest ih =>
    by_cases hs : get_database_size (env.colls n) > 0
    · rw [sizePhase, if_pos hs] at hp
      rcases List.mem_cons.mp hp with h | h
      · rw [h]; exact hs
      · exact ih h
    · rw [sizePhase, if_neg hs] at hp
      exact ih hp

/-- If every requested database has size zero, the size phase yields an
empty report and a zero total. -/
theorem sizePhase_all_zero (env : MongoEnv) (names : List String)
    (h : ∀ n ∈ names, get_database_size (env.colls n) = 0) :
    sizePhase env names = (0, []) := by
  induction names with
  | nil => rfl
  | cons n rest ih =>
    have hn : get_database_size (env.colls n) = 0 :=
      h n (List.mem_cons_self n rest)
    rw [sizePhase, if_neg (by omega)]
    exact ih fun m hm => h m (List.mem_cons_of_mem n hm)

/-- An empty size report forces a zero total. -/
theorem sizePhase_total_zero_of_nil (env : MongoEnv) (names : List String)
    (h : (sizePhase env names).2 = []) : (sizePhase env names).1 = 0 := by
  rw [sizePhase_total, h]
  rfl

/-- A nonempty size report forces a nonempty request list. -/
theorem names_ne_nil_of_details (env : MongoEnv) (names : List String)
    (h : (sizePhase env names).2 ≠ []) : names ≠ [] := by
  intro hn
  exact h (by rw [hn]; rfl)

/-- The error list of the export loop is exactly the requested databases
whose invocation exits non-zero, in request order. -/
theorem exportLoop_errs (env : MongoEnv) (names : List String) :
    (exportLoop env names).2 = names.filter (fun n => env.dumpExit n != 0) := by
  induction names with
  | nil => rfl
  | cons n rest ih =>
    cases hb : (env.dumpExit n != 0) <;>
      simp [exportLoop, List.filter_cons, hb, ih]

/-- The files of the export loop are the dump files of the successful
databases, concatenated in request order. -/
theorem exportLoop_files (env : MongoEnv) (names : List String) :
    (exportLoop env names).1 =
      (names.filter (fun n => env.dumpExit n == 0)).foldr
        (fun n acc => dumpFiles env n ++ acc) [] := by
  induction names with
  | nil => rfl
  | cons n rest ih =>
    cases hb : (env.dumpExit n == 0) <;>
      simp [exportLoop, List.filter_cons, hb, bne, ih]

/-- Every dump file of a successfully exported requested database appears in
the export loop output. -/
theorem exportLoop_files_mem (env : MongoEnv) (names : List String)
    (n : String) (hn : n ∈ names) (h0 : env.dumpExit n = 0)
    (f : String) (hf : f ∈ dumpFiles env n) : f ∈ (exportLoop env names).1 := by
  induction names with
  | nil => cases hn
  | cons m rest ih =>
    rcases List.mem_cons.mp hn with rfl | hmem
    · have hb : (env.dumpExit n != 0) = false := by simp [h0]
      rw [exportLoop, if_neg (by simp [hb])]
      exact List.mem_append_left _ hf
    · cases hb : (env.dumpExit m != 0)
      · rw [exportLoop, if_neg (by simp [hb])]
        exact List.mem_append_right _ (ih hmem)
      · rw [exportLoop, if_pos (by simp [hb])]
        exact ih hmem

/-- A file ending in one of the two signature extensions makes the
structural check succeed. -/
theorem has_valid_structure_of_mem (files : List String) (f : String)
    (hf : f ∈ files) (h : str_endswith f ".bson" = true) :
    has_valid_structure files = true :=
  List.any_eq_true.mpr ⟨f, hf, by simp [h]⟩

/-- A backup call whose db_names argument resolves to a list behaves like the
call with that list passed explicitly. -/
theorem create_congr_resolve (env : MongoEnv) (maxExportSize : Nat)
    (timestamp : String) (arg : Option (List String)) (names : List String)
    (h : resolveDbNames env arg = some names) :
    create_and_offer_download env maxExportSize timestamp arg =
      create_and_offer_download env maxExportSize timestamp (some names) := by
  unfold create_and_offer_download
  rw [h]
  rfl

/-- Dispatch lemma: an empty size report sends create_and_offer_download to
the no-accessible-databases early return. -/
theorem create_eq_noAccessible (env : MongoEnv) (maxExportSize : Nat)
    (timestamp : String) (names : List String)
    (h : (sizePhase env names).2 = []) :
    create_and_offer_download env maxExportSize timestamp (some names) =
      { outcome := .noAccessibleDbs, invocations := [], bulkInvoked := false,
        archiveProduced := false, outputDirCreated := false,
        outputDirRemoved := false, folder := none } := by
  unfold create_and_offer_download resolveDbNames
  simp [h]

/-- Dispatch lemma: a total above the ceiling sends create_and_offer_download
to the size-limit early return. -/
theorem create_eq_sizeLimit (env : MongoEnv) (maxExportSize : Nat)
    (timestamp : String) (names : List String)
    (h : (sizePhase env names).1 > maxExportSize) :
    create_and_offer_download env maxExportSize timestamp (some names) =
      { outcome := .sizeLimitExceeded (sizePhase env names).1 maxExportSize,
        invocations := [], bulkInvoked := false, archiveProduced := false,
        outputDirCreated := false, outputDirRemoved := false, folder := none } := by
  have hne : (sizePhase env names).2 ≠ [] := by
    intro hnil
    rw [sizePhase_total_zero_of_nil env names hnil] at h
    omega
  unfold create_and_offer_download resolveDbNames
  simp [hne, h]

/-- Dispatch lemma: a nonempty size report with a total at or below the
ceiling sends create_and_offer_download through the per-database export loop
to a completed run. -/
theorem create_eq_completed (env : MongoEnv) (maxExportSize : Nat)
    (timestamp : String) (names : List String)
    (h1 : (sizePhase env names).2 ≠ [])
    (h2 : (sizePhase env names).1 ≤ maxExportSize) :
    create_and_offer_download env maxExportSize timestamp (some names) =
      { outcome := .completed (exportLoop env names).1 (exportLoop env names).2,
        invocations := names, bulkInvoked := false, archiveProduced := true,
        outputDirCreated := true, outputDirRemoved := true,
        folder := some (folderName names timestamp) } := by
  have h3 : names ≠ [] := names_ne_nil_of_details env names h1
  unfold create_and_offer_download resolveDbNames
  simp [h1, h3, Nat.not_lt.mpr h2]

/-! Claim theorems. -/

/-- Claim C1, counterexample: with ceiling 100 and one accessible database of
total stored size 0, the total is at or below the ceiling yet the request does
not proceed to export: no mongodump invocation happens and no archive is
produced; the request is rejected as having no accessible databases.  This
refutes the universally quantified second half of the claim as stated. -/
theorem backup_size_gate_zero_total_not_exported :
    (sizePhase zeroSizeEnv ["db1"]).1 ≤ 100
    ∧ (create_and_offer_download zeroSizeEnv 100 "ts" (some ["db1"])).outcome
        = .noAccessibleDbs
    ∧ (create_and_offer_download zeroSizeEnv 100 "ts" (some ["db1"])).invocations = []
    ∧ (create_and_offer_download zeroSizeEnv 100 "ts" (some ["db1"])).archiveProduced
        = false := by
  decide

/-- Claim C1 (amended): for every backup request, if the pre-flight total size
exceeds the ceiling, the request fails with the size-limit error carrying the
computed total and the ceiling and performs no further work (no export-tool
invocation, no output directory, no archive); for every total at or below the
ceiling whose size report is nonempty, it proceeds to the per-database export. -/
theorem backup_size_gate_behavior (env : MongoEnv) (maxExportSize : Nat)
    (timestamp : String) (arg : Option (List String)) (names : List String)
    (hres : resolveDbNames env arg = some names) :
    (maxExportSize < (sizePhase env names).1 →
      (create_and_offer_download env maxExportSize timestamp arg).outcome
          = .sizeLimitExceeded (sizePhase env names).1 maxExportSize
      ∧ (create_and_offer_download env maxExportSize timestamp arg).invocations = []
      ∧ (create_and_offer_download env maxExportSize timestamp arg).bulkInvoked = false
      ∧ (create_and_offer_download env maxExportSize timestamp arg).outputDirCreated = false
      ∧ (create_and_offer_download env maxExportSize timestamp arg).archiveProduced = false)
    ∧ ((sizePhase env names).1 ≤ maxExportSize → (sizePhase env names).2 ≠ [] →
      (create_and_offer_download env maxExportSize timestamp arg).outcome
          = .completed (exportLoop env names).1 (exportLoop env names).2
      ∧ (create_and_offer_download env maxExportSize timestamp arg).invocations = names
      ∧ (create_and_offer_download env maxExportSize timestamp arg).archiveProduced = true) := by
  rw [create_congr_resolve env maxExportSize timestamp arg names hres]
  constructor
  · intro hgt
    rw [create_eq_sizeLimit env maxExportSize timestamp names hgt]
    exact ⟨rfl, rfl, rfl, rfl, rfl⟩
  · intro hle hne
    rw [create_eq_completed env maxExportSize timestamp names hne hle]
    exact ⟨rfl, rfl, rfl⟩

/-- Claim C1, witness: the specified scenario.  Ceiling 100 bytes, databases
reporting 60 and 50 bytes, total 110: the request fails with total 110 and
ceiling 100 and performs no export invocation. -/
theorem backup_size_gate_scenario :
    (create_and_offer_download scenarioEnv 100 "20250101_120000"
        (some ["db1", "db2"])).outcome = .sizeLimitExceeded 110 100
    ∧ (create_and_offer_download scenarioEnv 100 "20250101_120000"
        (some ["db1", "db2"])).invocations = [] := by
  have h := backup_size_gate_behavior scenarioEnv 100 "20250101_120000"
    (some ["db1", "db2"]) ["db1", "db2"] rfl
  have h1 := h.1 (by decide)
  exact ⟨by rw [h1.1]; decide, h1.2.1⟩

/-- Claim C2 (confirmed): for every explicit multi-database request that
passes the size gate, the export tool is invoked once per requested database
in the order given; the job completes and produces an archive holding the
dump files of the successful databases, and the reported error list is
exactly the requested databases whose invocation exited non-zero (empty on
full success). -/
theorem multi_db_partial_failure_policy (env : MongoEnv) (maxExportSize : Nat)
    (timestamp : String) (names : List String)
    (h1 : (sizePhase env names).2 ≠ [])
    (h2 : (sizePhase env names).1 ≤ maxExportSize) :
    (create_and_offer_download env maxExportSize timestamp (some names)).invocations
        = names
    ∧ (create_and_offer_download env maxExportSize timestamp (some names)).outcome
        = .completed
            ((names.filter (fun n => env.dumpExit n == 0)).foldr
              (fun n acc => dumpFiles env n ++ acc) [])
            (names.filter (fun n => env.dumpExit n != 0))
    ∧ (create_and_offer_download env maxExportSize timestamp (some names)).archiveProduced
        = true := by
  rw [create_eq_completed env maxExportSize timestamp names h1 h2]
  refine ⟨rfl, ?_, rfl⟩
  show BackupOutcome.completed (exportLoop env names).1 (exportLoop env names).2 = _
  rw [exportLoop_errs, exportLoop_files]

/-- Claim C2, witness: the specified scenario.  Three requested databases,
the second export invocation exits non-zero: the job completes with an
archive holding the other two databases' dump files and the error list is
exactly the second database. -/
theorem multi_db_partial_failure_scenario :
    (create_and_offer_download partialFailEnv 512 "ts" (some ["a", "b", "c"])).outcome
      = .completed
          ["a/c1.bson", "a/c1.metadata.json", "c/c3.bson", "c/c3.metadata.json"]
          ["b"] := by
  have h := multi_db_partial_failure_policy partialFailEnv 512 "ts"
    ["a", "b", "c"] (by decide) (by decide)
  rw [h.2.1]
  decide

/-- Claim C4 (confirmed): every invocation of restore_database removes its
temporary staging directory before returning, on every exit path: successful
restore, invalid or unrecognized archive, empty archive, restore tool exiting
non-zero, or an exception raised mid-extraction.  The universally quantified
input covers all of these paths. -/
theorem restore_temp_dir_always_removed (inp : RestoreInput) (dbName : String) :
    (restore_database inp dbName).tempDirRemoved = true := rfl

/-- Claim C5, evaluation at the failing input: a backup of database mydb at
timestamp 20250101_120000 is written to a folder that does not carry the
backup_ naming convention, and neither the folder nor the persistent zip
artifact is ever deleted by a retention sweep, however old it is.  The same
holds for the multiple-database and all-database folder names. -/
theorem backup_folder_never_swept :
    folderName ["mydb"] "20250101_120000" = "mydb_20250101_120000"
    ∧ str_startswith "mydb_20250101_120000" "backup_" = false
    ∧ folderName ["db1", "db2"] "20250101_120000" = "multiple_dbs_2_20250101_120000"
    ∧ str_startswith "multiple_dbs_2_20250101_120000" "backup_" = false
    ∧ folderName [] "20250101_120000" = "all_databases_20250101_120000"
    ∧ str_startswith "all_databases_20250101_120000" "backup_" = false
    ∧ sweepOnce 1
        [{ name := "mydb_20250101_120000", isDir := true, ageSeconds := 999999,
           deleteRaises := false },
         { name := "mydb_20250101_120000.zip", isDir := false, ageSeconds := 999999,
           deleteRaises := false }] = ([], none) := by
  decide

/-- Claim C6, counterexample: a sweep cycle meets an expired backup directory
whose deletion raises; the following entry is also expired and deletable, yet
the cycle deletes nothing and aborts at the raising entry, so the remaining
entries are not processed.  This refutes the claim that a deletion error is
skipped and never terminates the sweep loop. -/
theorem sweep_delete_error_aborts_cycle :
    sweepOnce 1 [raisingEntry, agedEntry] = ([], some "backup_a")
    ∧ sweepEligible 1 agedEntry = true := by
  decide

/-- Claim C6 (amended): a deletion error is not skipped: when the first
raising eligible entry is reached, the sweep cycle has deleted exactly the
eligible entries listed before it and then aborts with the exception, leaving
every later entry unprocessed (the unguarded exception also ends the
enclosing sweep loop). -/
theorem sweep_delete_error_behavior (retentionHours : Nat)
    (pre : List DirEntry) (e : DirEntry) (post : List DirEntry)
    (hpre : ∀ x ∈ pre, x.deleteRaises = false)
    (he : sweepEligible retentionHours e = true)
    (hr : e.deleteRaises = true) :
    sweepOnce retentionHours (pre ++ e :: post) =
      ((pre.filter (sweepEligible retentionHours)).map DirEntry.name,
        some e.name) := by
  induction pre with
  | nil => simp [sweepOnce, he, hr]
  | cons x rest ih =>
    have hx : x.deleteRaises = false := hpre x (List.mem_cons_self x rest)
    have hrest : ∀ y ∈ rest, y.deleteRaises = false :=
      fun y hy => hpre y (List.mem_cons_of_mem x hy)
    cases hs : sweepEligible retentionHours x
    · simp [sweepOnce, hs, List.filter_cons, ih hrest]
    · simp [sweepOnce, hs, hx, List.filter_cons, ih hrest]

/-- Claim C6, witness: a cycle over one deletable expired directory, then the
raising entry, then another expired directory: the first is deleted, the
cycle aborts at the raising entry, and the last entry is untouched. -/
theorem sweep_delete_error_behavior_witness :
    sweepOnce 1 ([agedOkEntry] ++ raisingEntry :: [agedEntry]) =
      (["backup_ok"], some "backup_a") := by
  rw [sweep_delete_error_behavior 1 [agedOkEntry] raisingEntry [agedEntry]
    (by decide) (by decide) (by decide)]
  decide

/-- Claim C7, counterexample: an all-databases request (db_names = None) in
which the export of database b exits non-zero does not fail as a whole: the
request is resolved to an explicit list before branching, so it runs the
per-database loop, records b in the error list, still produces an archive,
and never invokes the export tool in bulk mode. -/
theorem all_databases_failure_not_fatal :
    (create_and_offer_download allDbsFailEnv 512 "ts" none).outcome
        = .completed ["a/c1.bson", "a/c1.metadata.json"] ["b"]
    ∧ (create_and_offer_download allDbsFailEnv 512 "ts" none).archiveProduced = true
    ∧ (create_and_offer_download allDbsFailEnv 512 "ts" none).bulkInvoked = false := by
  decide

/-- Claim C7 (amended): the bulk-mode export invocation is unreachable.  The
db_names argument is resolved to an explicit list before the branch, and an
empty resolved list is rejected by the accessibility gate, so no request of
any kind ever reaches the bulk-mode branch; an all-databases backup follows
the per-database loop and its partial-failure policy instead. -/
theorem bulk_mode_never_invoked (env : MongoEnv) (maxExportSize : Nat)
    (timestamp : String) (arg : Option (List String)) :
    (create_and_offer_download env maxExportSize timestamp arg).bulkInvoked
      = false := by
  cases harg : resolveDbNames env arg with
  | none =>
    unfold create_and_offer_download
    rw [harg]
  | some names =>
    rw [create_congr_resolve env maxExportSize timestamp arg names harg]
    by_cases hd : (sizePhase env names).2 = []
    · rw [create_eq_noAccessible env maxExportSize timestamp names hd]
    · by_cases hmax : maxExportSize < (sizePhase env names).1
      · rw [create_eq_sizeLimit env maxExportSize timestamp names hmax]
      · rw [create_eq_completed env maxExportSize timestamp names hd
          (Nat.le_of_not_lt hmax)]

/-- Claim C3, counterexample: a job whose only requested database fails to
export still completes and produces an archive (partial-failure policy), but
that archive contains no dump file, and validate_backup_zip rejects it as not
containing valid MongoDB backup data.  This refutes the claim that the
structural check never rejects a self-produced archive. -/
theorem self_archive_validation_failure :
    (create_and_offer_download allFailEnv 512 "ts" (some ["db1"])).outcome
        = .completed [] ["db1"]
    ∧ (create_and_offer_download allFailEnv 512 "ts" (some ["db1"])).archiveProduced
        = true
    ∧ validate_backup_zip true [] =
        (false, some "ZIP file does not contain valid MongoDB backup data") := by
  decide

/-- Claim C3 (amended): the structural check accepts every archive produced by
a completed backup job in which at least one database was exported
successfully and that database has at least one collection; only an archive
whose every export failed (or whose successful databases are empty) can be
rejected. -/
theorem self_archive_validation_amended (env : MongoEnv) (maxExportSize : Nat)
    (timestamp : String) (names : List String) (files errs : List String)
    (hrun : (create_and_offer_download env maxExportSize timestamp (some names)).outcome
        = .completed files errs)
    (hw : ∃ n, n ∈ names ∧ env.dumpExit n = 0
        ∧ ∃ c cs, env.colls n = some (c :: cs)) :
    validate_backup_zip true files = (true, none) := by
  obtain ⟨n, hn, h0, c, cs, hcolls⟩ := hw
  by_cases hd : (sizePhase env names).2 = []
  · rw [create_eq_noAccessible env maxExportSize timestamp names hd] at hrun
    simp at hrun
  · by_cases hmax : maxExportSize < (sizePhase env names).1
    · rw [create_eq_sizeLimit env maxExportSize timestamp names hmax] at hrun
      simp at hrun
    · rw [create_eq_completed env maxExportSize timestamp names hd
        (Nat.le_of_not_lt hmax)] at hrun
      simp only [BackupOutcome.completed.injEq] at hrun
      obtain ⟨hf, -⟩ := hrun
      have hfmem : ((n ++ "/" ++ c.name) ++ ".bson") ∈ dumpFiles env n := by
        simp [dumpFiles, hcolls]
      have hmem : ((n ++ "/" ++ c.name) ++ ".bson") ∈ files :=
        hf ▸ exportLoop_files_mem env names n hn h0 _ hfmem
      have hvs : has_valid_structure files = true :=
        has_valid_structure_of_mem files _ hmem
          (str_endswith_append (n ++ "/" ++ c.name) ".bson")
      simp [validate_backup_zip, hvs]

/-- Claim C3, witness: a completed job over databases a and b in which a
exports successfully (one collection) and b fails: the produced archive
contains the dump files of a and the structural check accepts it. -/
theorem self_archive_validation_witness :
    validate_backup_zip true ["a/c1.bson", "a/c1.metadata.json"] = (true, none) := by
  exact self_archive_validation_amended mixedFailEnv 512 "ts" ["a", "b"]
    ["a/c1.bson", "a/c1.metadata.json"] ["b"] (by decide)
    ⟨"a", by decide, by decide,
      { name := "c1", accessible := true, size := 5 }, [], by decide⟩

/-- Claim C8 (confirmed): for every well-formed zip upload, the structural
check accepts it if and only if the file listing contains at least one name
ending in .bson or in .metadata.json; otherwise the restore fails with the
unrecognized-backup-format message before any restore-tool invocation. -/
theorem zip_structural_check (inp : RestoreInput) (dbName : String)
    (h : inp.isZip = true) :
    ((validate_backup_zip inp.isZip inp.fileList).1 = true ↔
      ∃ f ∈ inp.fileList,
        str_endswith f ".bson" = true ∨ str_endswith f ".metadata.json" = true)
    ∧ (has_valid_structure inp.fileList = false →
        (restore_database inp dbName).outcome =
          .validationFailed "ZIP file does not contain valid MongoDB backup data"
        ∧ (restore_database inp dbName).toolInvoked = false) := by
  constructor
  · have hiff : (validate_backup_zip inp.isZip inp.fileList).1 = true ↔
        has_valid_structure inp.fileList = true := by
      rw [h]
      by_cases hv : has_valid_structure inp.fileList <;>
        simp [validate_backup_zip, hv]
    rw [hiff, has_valid_structure, List.any_eq_true]
    simp
  · intro hv
    have hval : validate_backup_zip inp.isZip inp.fileList =
        (false, some "ZIP file does not contain valid MongoDB backup data") := by
      rw [h]
      simp [validate_backup_zip, hv]
    unfold restore_database
    rw [hval]
    exact ⟨rfl, rfl⟩

/-- Claim C8, witness: the specified scenario.  A well-formed zip containing
only unrelated files is rejected with the unrecognized-backup-format message
and the restore tool is never invoked (and, by the C4 guarantee, the staging
directory is still removed). -/
theorem zip_structural_check_witness :
    (restore_database inpUnrelated "target").outcome =
      .validationFailed "ZIP file does not contain valid MongoDB backup data"
    ∧ (restore_database inpUnrelated "target").toolInvoked = false :=
  (zip_structural_check inpUnrelated "target" rfl).2 (by decide)

/-- Claim C9 (confirmed): size estimation skips what it cannot access:
an access-denied collection contributes nothing, an access-denied database
contributes zero; the returned total equals the sum of the per-database
mapping; and when no requested database is accessible the report is empty,
the request is rejected with the no-accessible-databases error and no export
is performed. -/
theorem size_estimator_contract :
    (∀ (c : CollStat) (cs : List CollStat), c.accessible = false →
        get_database_size (some (c :: cs)) = get_database_size (some cs))
    ∧ get_database_size none = 0
    ∧ (∀ (env : MongoEnv) (names : List String),
        (sizePhase env names).1 = ((sizePhase env names).2.map Prod.snd).sum)
    ∧ (∀ (env : MongoEnv) (maxExportSize : Nat) (timestamp : String)
        (names : List String),
        (∀ n ∈ names,
          env.colls n = none ∨ ∀ c ∈ (env.colls n).getD [], c.accessible = false) →
        (sizePhase env names).2 = []
        ∧ (create_and_offer_download env maxExportSize timestamp
            (some names)).outcome = .noAccessibleDbs
        ∧ (create_and_offer_download env maxExportSize timestamp
            (some names)).invocations = []
        ∧ (create_and_offer_download env maxExportSize timestamp
            (some names)).archiveProduced = false) := by
  refine ⟨?_, rfl, sizePhase_total, ?_⟩
  · intro c cs hc
    show sumAccessible (c :: cs) = sumAccessible cs
    exact sumAccessible_skip c cs hc
  · intro env maxExportSize timestamp names hall
    have hz : ∀ n ∈ names, get_database_size (env.colls n) = 0 := by
      intro n hn
      rcases hall n hn with hnone | hinacc
      · rw [hnone]
        rfl
      · cases hc : env.colls n with
        | none => rfl
        | some cs =>
          rw [hc] at hinacc
          simp only [Option.getD_some] at hinacc
          exact sumAccessible_all_inaccessible cs hinacc
    have hd : (sizePhase env names).2 = [] := by
      rw [sizePhase_all_zero env names hz]
    rw [create_eq_noAccessible env maxExportSize timestamp names hd]
    exact ⟨hd, rfl, rfl, rfl⟩

/-- Claim C9, witness: one requested database whose collection listing raises
an access error: the request is rejected as having no accessible databases
and no export is performed. -/
theorem size_estimator_contract_witness :
    (create_and_offer_download deniedEnv 512 "ts" (some ["db1"])).outcome
        = .noAccessibleDbs
    ∧ (create_and_offer_download deniedEnv 512 "ts" (some ["db1"])).invocations
        = [] :=
  have h := size_estimator_contract.2.2.2 deniedEnv 512 "ts" ["db1"]
    (fun _ _ => Or.inl rfl)
  ⟨h.2.1, h.2.2.1⟩

/-- Claim C10 (confirmed): a database enters the size report only when its
computed size is strictly positive, so a request in which every accessible
database reports 0 bytes is rejected with the same no-accessible-databases
error as a fully inaccessible one, and no backup is produced. -/
theorem zero_size_databases_rejected :
    (∀ (env : MongoEnv) (names : List String) (p : String × Nat),
        p ∈ (sizePhase env names).2 → 0 < p.2)
    ∧ (∀ (env : MongoEnv) (maxExportSize : Nat) (timestamp : String)
        (names : List String),
        (∀ n ∈ names, get_database_size (env.colls n) = 0) →
        (create_and_offer_download env maxExportSize timestamp
            (some names)).outcome = .noAccessibleDbs
        ∧ (create_and_offer_download env maxExportSize timestamp
            (some names)).invocations = []
        ∧ (create_and_offer_download env maxExportSize timestamp
            (some names)).archiveProduced = false) := by
  refine ⟨sizePhase_mem_pos, ?_⟩
  intro env maxExportSize timestamp names hz
  have hd : (sizePhase env names).2 = [] := by
    rw [sizePhase_all_zero env names hz]
  rw [create_eq_noAccessible env maxExportSize timestamp names hd]
  exact ⟨rfl, rfl, rfl⟩

/-- Claim C10, witness: one fully accessible database whose only collection
reports 0 bytes: the request is rejected exactly like an inaccessible one. -/
theorem zero_size_databases_rejected_witness :
    (create_and_offer_download emptyDbEnv 512 "ts" (some ["db1"])).outcome
      = .noAccessibleDbs :=
  (zero_size_databases_rejected.2 emptyDbEnv 512 "ts" ["db1"] (by decide)).1

end MongoBackupTool
